import Mathlib

/-!
Verification development for the NZLUSDB land-suitability pipeline
(`src/nzlusdb/core/landuse.py` and the criteria catalogs).

The development shallowly embeds the two algorithmic cores:

* the ensemble robustness engine (`LandUse.period_mmm_change_robustness`),
  modelled over grids of `Option ℚ` values (`none` plays the role of the
  floating-point NaN missing-data marker, and realization/time means use
  xarray's skipna semantics: missing values are excluded from the
  denominator);
* the suitability run engine (`LandUse.run_lsa` / `LandUse._run_lsa`),
  modelled over real-valued grids, with the weighted-aggregation engine and
  the response-curve evaluation (implemented in the external `lsapy`
  package) modelled from the specification, and the external indicator
  store abstracted as a function from structured file names to grids.

Statistical routines delegated to the external `xclim.ensembles` package
(`robustness_fractions` with the "ipcc-ar6-c" test, `robustness_categories`,
`robustness_coefficient`) are modelled from the specification, with the
IPCC AR6 variability-significance test kept abstract as a parameter.
-/

namespace NZLUSDB

/-! ## Periods

`period_mmm_change_robustness` slices its input into four fixed inclusive
year windows (`data.sel(time=slice("1980", "2009"))` and so on); the
1980-2009 window is the reference passed to every robustness computation
and is the basis of the baseline, which the `isBaseline` flag records. -/

structure Period where
  label : String
  startYear : ℕ
  endYear : ℕ
  isBaseline : Bool
deriving DecidableEq, Repr

def histPeriod : Period := ⟨"1980-2009", 1980, 2009, true⟩

def nearPeriod : Period := ⟨"2010-2039", 2010, 2039, false⟩

def midPeriod : Period := ⟨"2040-2069", 2040, 2069, false⟩

def longPeriod : Period := ⟨"2070-2099", 2070, 2099, false⟩

def futurePeriods : List Period := [nearPeriod, midPeriod, longPeriod]

def allPeriods : List Period := histPeriod :: futurePeriods

/-- A year belongs to a period when it lies in the inclusive label-slice
range (xarray label slicing is inclusive at both ends). -/
def Period.containsYear (p : Period) (y : ℕ) : Bool :=
  decide (p.startYear ≤ y) && decide (y ≤ p.endYear)

/-- C3: the four periods used by the robustness engine are pairwise
non-overlapping inclusive year ranges, their union exactly covers
1980-2099, and exactly one of them is the baseline. -/
theorem periods_partition_baseline :
    (∀ p ∈ allPeriods, ∀ q ∈ allPeriods, p ≠ q →
      ∀ y : ℕ, ¬(p.containsYear y = true ∧ q.containsYear y = true))
    ∧ (∀ y : ℕ, (1980 ≤ y ∧ y ≤ 2099) ↔ ∃ p ∈ allPeriods, p.containsYear y = true)
    ∧ (allPeriods.filter (fun p => p.isBaseline)).length = 1
    ∧ histPeriod.isBaseline = true := by
  refine ⟨?_, ?_, by decide, rfl⟩
  · intro p hp q hq hne y
    simp only [allPeriods, futurePeriods, List.mem_cons, List.mem_singleton,
      List.not_mem_nil, or_false] at hp hq
    rcases hp with hp | hp | hp | hp <;> rcases hq with hq | hq | hq | hq <;>
      subst hp <;> subst hq <;>
      simp only [Period.containsYear, histPeriod, nearPeriod, midPeriod, longPeriod,
        Bool.and_eq_true, decide_eq_true_eq] at * <;>
      first
        | exact absurd rfl hne
        | (rintro ⟨⟨h1, h2⟩, h3, h4⟩; omega)
  · intro y
    simp only [allPeriods, futurePeriods, List.mem_cons, List.mem_singleton,
      List.not_mem_nil, or_false, Period.containsYear, histPeriod, nearPeriod,
      midPeriod, longPeriod, Bool.and_eq_true, decide_eq_true_eq]
    constructor
    · rintro ⟨h1, h2⟩
      by_cases h : y ≤ 2009
      · exact ⟨histPeriod, Or.inl rfl, by simp [histPeriod, Period.containsYear]; omega⟩
      · by_cases h2039 : y ≤ 2039
        · exact ⟨nearPeriod, Or.inr (Or.inl rfl), by simp [nearPeriod, Period.containsYear]; omega⟩
        · by_cases h2069 : y ≤ 2069
          · exact ⟨midPeriod, Or.inr (Or.inr (Or.inl rfl)),
              by simp [midPeriod, Period.containsYear]; omega⟩
          · exact ⟨longPeriod, Or.inr (Or.inr (Or.inr rfl)),
              by simp [longPeriod, Period.containsYear]; omega⟩
    · rintro ⟨p, hp, hy⟩
      rcases hp with hp | hp | hp | hp <;> subst hp <;>
        simp only [Period.containsYear, histPeriod, nearPeriod, midPeriod, longPeriod,
          Bool.and_eq_true, decide_eq_true_eq] at hy <;> omega

/-! ## Suitability fields

The input of `period_mmm_change_robustness` is an `xr.DataArray` indexed by
time, scenario and realization (plus space).  We model it by explicit
coordinate lists together with a total value function; a cell is an
abstract spatial index, and a value of `none` models the NaN missing-data
marker. -/

structure SuitData where
  years : List ℕ
  scenarios : List String
  realizations : List String
  val : ℕ → String → String → ℕ → Option ℚ
  units : Option String

/-- NaN-propagating binary arithmetic: as in floating point, an operation
with a missing operand is missing. -/
def omap2 (f : ℚ → ℚ → ℚ) : Option ℚ → Option ℚ → Option ℚ
  | some a, some b => some (f a b)
  | _, _ => none

/-- Mean with xarray's default skipna semantics: missing values are
excluded from the denominator, and the mean of no valid values is
missing. -/
def nanmean (xs : List (Option ℚ)) : Option ℚ :=
  if (xs.filterMap id).length = 0 then none
  else some ((xs.filterMap id).sum / ((xs.filterMap id).length : ℚ))

/-- Time mean of one period slice (`data.sel(time=slice(...)).mean("time")`)
for a fixed scenario, realization and cell. -/
def SuitData.timeMean (d : SuitData) (p : Period) (s r : String) (c : ℕ) : Option ℚ :=
  nanmean ((d.years.filter (fun y => p.containsYear y)).map (fun y => d.val y s r c))

/-- The scenario picked by `data_hist.isel(scenario=0)`. -/
def SuitData.scenario0 (d : SuitData) : String := d.scenarios.headD ""

/-- Per-realization baseline, `data_hist.isel(scenario=0).drop_vars("scenario").mean("time")`
(source line 421): the 1980-2009 time mean of the first scenario's slice,
still indexed by realization. -/
def SuitData.histMean (d : SuitData) (r : String) (c : ℕ) : Option ℚ :=
  d.timeMean histPeriod d.scenario0 r c

/-! ## Robustness statistics (external `xclim.ensembles`)

Modelled from the spec: `robustness_fractions(fut, hist, test="ipcc-ar6-c")`,
`robustness_categories` and `robustness_coefficient` are implemented in the
external `xclim.ensembles` package, which is not part of this repository.
Following the spec, the per-realization change is the future time mean
minus the historical time mean of the same realization (here against the
same scenario's historical slice, which is what the source passes), the
variability-significance test of IPCC AR6 is delegated to an external
formula and therefore kept abstract as the `sig` parameter, and a cell is
robust when at least 66% of the valid realizations show a significant
change of consistent sign, conflicting when at least 20% of the valid
realizations disagree in sign on a significant change (conflicting taking
precedence), and "no change or no signal" otherwise.  NaN realizations are
excluded from every denominator. -/

/-- Abstract IPCC AR6 variability-significance test: given the realization,
the cell and the per-realization change, decide whether the change exceeds
natural variability. -/
abbrev SigTest := String → ℕ → ℚ → Bool

/-- Per-realization change of a future period against the same scenario's
historical slice. -/
def SuitData.realizationChange (d : SuitData) (p : Period) (s r : String) (c : ℕ) : Option ℚ :=
  omap2 (fun f h => f - h) (d.timeMean p s r c) (d.timeMean histPeriod s r c)

/-- Agreement fractions across the realization axis: the number of valid
(non-NaN) realizations and the fractions showing a significant positive
and a significant negative change. -/
structure Fractions where
  valid : ℕ
  sigPos : ℚ
  sigNeg : ℚ
deriving DecidableEq, Repr

def SuitData.validChanges (d : SuitData) (p : Period) (s : String) (c : ℕ) :
    List (String × ℚ) :=
  d.realizations.filterMap (fun r => (d.realizationChange p s r c).map (fun q => (r, q)))

def SuitData.fractions (d : SuitData) (sig : SigTest) (p : Period) (s : String) (c : ℕ) :
    Fractions :=
  if (d.validChanges p s c).length = 0 then ⟨0, 0, 0⟩
  else
    ⟨(d.validChanges p s c).length,
     (((d.validChanges p s c).filter
        (fun rq => sig rq.1 c rq.2 && decide (0 < rq.2))).length : ℚ)
       / ((d.validChanges p s c).length : ℚ),
     (((d.validChanges p s c).filter
        (fun rq => sig rq.1 c rq.2 && decide (rq.2 < 0))).length : ℚ)
       / ((d.validChanges p s c).length : ℚ)⟩

/-- Robust signal: at least 66% of realizations show a significant change
of consistent sign. -/
def Fractions.robustSignal (f : Fractions) : Bool :=
  decide ((66 : ℚ) / 100 ≤ f.sigPos) || decide ((66 : ℚ) / 100 ≤ f.sigNeg)

/-- Conflicting signal: at least 20% of realizations disagree in sign on a
significant change. -/
def Fractions.conflictingSignal (f : Fractions) : Bool :=
  decide ((1 : ℚ) / 5 ≤ f.sigPos) && decide ((1 : ℚ) / 5 ≤ f.sigNeg)

/-- Three-way classification with the fixed flag-value legend 0 = robust,
1 = no change or no signal, 2 = conflicting; unclassified (all realizations
missing) cells stay missing.  Conflicting-signal detection takes precedence
over robust. -/
def robustnessCategory (f : Fractions) : Option ℕ :=
  if f.valid = 0 then none
  else some (if f.conflictingSignal then 2 else if f.robustSignal then 0 else 1)

/-- Reference field passed to `robustness_coefficient`
(`data_hist.mean("realization")`, source line 414): the realization mean of
the historical time mean, per scenario. -/
def SuitData.refMean (d : SuitData) (s : String) (c : ℕ) : Option ℚ :=
  nanmean (d.realizations.map (fun r => d.timeMean histPeriod s r c))

/-- Spread of a list of values, taken as the ensemble range. -/
def listRange (xs : List ℚ) : ℚ :=
  match xs with
  | [] => 0
  | x :: t => t.foldl max x - t.foldl min x

/-- Modelled from the spec: the continuous robustness coefficient is a
signal-to-model-spread ratio of the per-realization changes against the
realization-mean historical reference, computed by the external
`xclim.ensembles.robustness_coefficient`; missing where no realization is
valid. -/
def SuitData.coeffChanges (d : SuitData) (p : Period) (s : String) (c : ℕ) : List ℚ :=
  (d.realizations.map
    (fun r => omap2 (fun f h => f - h) (d.timeMean p s r c) (d.refMean s c))).filterMap id

def SuitData.robustnessCoefficient (d : SuitData) (p : Period) (s : String) (c : ℕ) :
    Option ℚ :=
  if (d.coeffChanges p s c).length = 0 then none
  else some ((d.coeffChanges p s c).sum / ((d.coeffChanges p s c).length : ℚ)
    / listRange (d.coeffChanges p s c))

/-! ## Changes and the merged output -/

inductive DeltaMethod where
  | absolute
  | relative
deriving DecidableEq, Repr

/-- Change per future period, scenario and cell (source lines 431-438):
with `delta_method="absolute"` the realization mean of the per-realization
difference of time means; with `delta_method="relative"` the realization
mean of the per-realization relative change times 100 (the division by the
per-realization baseline happens before the realization mean). -/
def SuitData.changeField (d : SuitData) (m : DeltaMethod) (p : Period) (s : String) (c : ℕ) :
    Option ℚ :=
  match m with
  | .absolute =>
      nanmean (d.realizations.map
        (fun r => omap2 (fun f h => f - h) (d.timeMean p s r c) (d.histMean r c)))
  | .relative =>
      nanmean (d.realizations.map
        (fun r => omap2 (fun f h => (f - h) / h * 100) (d.timeMean p s r c) (d.histMean r c)))

/-- The composite key of the historical entry after
`assign_coords(period="1980-2009", scenario="historical")`. -/
def histKey : String × String := ("1980-2009", "historical")

/-- Look a label up among the three future periods (the `period`
coordinates attached by `assign_coords`). -/
def periodOfLabel (l : String) : Option Period :=
  futurePeriods.find? (fun p => p.label == l)

/-- Output of `period_mmm_change_robustness`: one time-indexed dataset with
a composite (period, scenario) key holding the multi-model mean
suitability for the baseline and every future period, and — merged with an
outer join that fills missing keys with NaN — the change and the two
robustness fields, which only exist at future keys. -/
structure RobustnessOutput where
  keys : List (String × String)
  suitability : String × String → ℕ → Option ℚ
  change : String × String → ℕ → Option ℚ
  robustnessCategories : String × String → ℕ → Option ℕ
  robustnessCoefficient : String × String → ℕ → Option ℚ
  changeUnits : Option String

/-- Shallow embedding of `LandUse.period_mmm_change_robustness` (source
lines 373-456), with the external significance test abstract. -/
def periodMmmChangeRobustness (d : SuitData) (sig : SigTest) (m : DeltaMethod) :
    RobustnessOutput where
  keys := histKey :: (futurePeriods.map (fun p => p.label)).flatMap
    (fun pl => d.scenarios.map (fun s => (pl, s)))
  suitability := fun k c =>
    if k = histKey then nanmean (d.realizations.map (fun r => d.histMean r c))
    else
      match periodOfLabel k.1 with
      | some p =>
          if k.2 ∈ d.scenarios then
            nanmean (d.realizations.map (fun r => d.timeMean p k.2 r c))
          else none
      | none => none
  change := fun k c =>
    match periodOfLabel k.1 with
    | some p => if k.2 ∈ d.scenarios then d.changeField m p k.2 c else none
    | none => none
  robustnessCategories := fun k c =>
    match periodOfLabel k.1 with
    | some p =>
        if k.2 ∈ d.scenarios then robustnessCategory (d.fractions sig p k.2 c) else none
    | none => none
  robustnessCoefficient := fun k c =>
    match periodOfLabel k.1 with
    | some p => if k.2 ∈ d.scenarios then d.robustnessCoefficient p k.2 c else none
    | none => none
  changeUnits :=
    match m with
    | .absolute => d.units
    | .relative => some "%"

/-! ## Helper lemmas on NaN-aware means -/

theorem omap2_none_right (f : ℚ → ℚ → ℚ) (x : Option ℚ) : omap2 f x none = none := by
  cases x <;> rfl

theorem omap2_none_left (f : ℚ → ℚ → ℚ) (x : Option ℚ) : omap2 f none x = none := by
  cases x <;> rfl

theorem filterMap_id_map_some {α : Type} (l : List α) (f : α → ℚ) :
    (l.map (fun x => some (f x))).filterMap id = l.map f := by
  induction l with
  | nil => rfl
  | cons a t ih => simp [ih]

theorem sum_map_sub {α : Type} (l : List α) (f g : α → ℚ) :
    (l.map (fun x => f x - g x)).sum = (l.map f).sum - (l.map g).sum := by
  induction l with
  | nil => simp
  | cons a t ih => simp only [List.map_cons, List.sum_cons, ih]; ring

theorem nanmean_map_some {α : Type} (l : List α) (f : α → ℚ) :
    nanmean (l.map (fun x => some (f x)))
      = if l.length = 0 then none else some ((l.map f).sum / (l.length : ℚ)) := by
  unfold nanmean
  rw [filterMap_id_map_some, List.length_map]

theorem nanmean_map_none {α : Type} (l : List α) :
    nanmean (l.map (fun _ => (none : Option ℚ))) = none := by
  have h : (l.map (fun _ => (none : Option ℚ))).filterMap id = [] := by
    induction l with
    | nil => rfl
    | cons a t ih =>
      rw [List.map_cons, List.filterMap_cons]
      exact ih
  unfold nanmean
  rw [h]
  rfl

theorem length_filterMap_of_all_some {α β : Type} (l : List α) (f : α → Option β)
    (h : ∀ a ∈ l, (f a).isSome = true) : (l.filterMap f).length = l.length := by
  induction l with
  | nil => rfl
  | cons a t ih =>
    rcases Option.isSome_iff_exists.mp (h a (List.mem_cons_self a t)) with ⟨b, hb⟩
    simp only [List.filterMap_cons, hb, List.length_cons]
    rw [ih (fun x hx => h x (List.mem_cons_of_mem a hx))]

theorem nanmean_isSome {xs : List (Option ℚ)} (hne : xs ≠ [])
    (h : ∀ x ∈ xs, x.isSome = true) : (nanmean xs).isSome = true := by
  have hlen : (xs.filterMap id).length = xs.length := length_filterMap_of_all_some xs id h
  have hz : xs.length ≠ 0 := fun h0 => hne (List.length_eq_zero.mp h0)
  unfold nanmean
  rw [hlen, if_neg hz]
  rfl

theorem nanmean_omap2_sub {α : Type} (l : List α) (F H : α → Option ℚ)
    (hF : (∀ x, (F x).isSome = true) ∨ (∀ x, F x = none))
    (hH : (∀ x, (H x).isSome = true) ∨ (∀ x, H x = none)) :
    nanmean (l.map (fun x => omap2 (fun f h => f - h) (F x) (H x)))
      = omap2 (fun f h => f - h) (nanmean (l.map F)) (nanmean (l.map H)) := by
  rcases hF with hF | hF
  · rcases hH with hH | hH
    · have hFe : ∀ x, F x = some ((F x).getD 0) := by
        intro x
        rcases Option.isSome_iff_exists.mp (hF x) with ⟨v, hv⟩
        simp [hv]
      have hHe : ∀ x, H x = some ((H x).getD 0) := by
        intro x
        rcases Option.isSome_iff_exists.mp (hH x) with ⟨v, hv⟩
        simp [hv]
      have h1 : l.map (fun x => omap2 (fun f h => f - h) (F x) (H x))
          = l.map (fun x => some ((F x).getD 0 - (H x).getD 0)) := by
        apply List.map_congr_left
        intro x _
        rw [hFe x, hHe x]
        rfl
      have h2 : l.map F = l.map (fun x => some ((F x).getD 0)) :=
        List.map_congr_left (fun x _ => hFe x)
      have h3 : l.map H = l.map (fun x => some ((H x).getD 0)) :=
        List.map_congr_left (fun x _ => hHe x)
      rw [h1, h2, h3, nanmean_map_some, nanmean_map_some, nanmean_map_some]
      by_cases hl : l.length = 0
      · simp only [hl, if_pos]
        rfl
      · simp only [hl, if_false]
        show some _ = some _
        congr 1
        rw [sum_map_sub]
        rw [sub_div]
    · have h1 : l.map (fun x => omap2 (fun f h => f - h) (F x) (H x))
          = l.map (fun _ => (none : Option ℚ)) := by
        apply List.map_congr_left
        intro x _
        rw [hH x, omap2_none_right]
      have h3 : l.map H = l.map (fun _ => (none : Option ℚ)) :=
        List.map_congr_left (fun x _ => hH x)
      rw [h1, h3, nanmean_map_none, omap2_none_right]
  · have h1 : l.map (fun x => omap2 (fun f h => f - h) (F x) (H x))
        = l.map (fun _ => (none : Option ℚ)) := by
      apply List.map_congr_left
      intro x _
      rw [hF x, omap2_none_left]
    have h2 : l.map F = l.map (fun _ => (none : Option ℚ)) :=
      List.map_congr_left (fun x _ => hF x)
    rw [h1, h2, nanmean_map_none, omap2_none_left]

theorem timeMean_some_or_none (d : SuitData) (p : Period) (s : String) (c : ℕ)
    (hval : ∀ y sc r cc, (d.val y sc r cc).isSome = true) :
    (∀ r, (d.timeMean p s r c).isSome = true) ∨ (∀ r, d.timeMean p s r c = none) := by
  by_cases hy : d.years.filter (fun y => p.containsYear y) = []
  · right
    intro r
    unfold SuitData.timeMean
    rw [hy]
    rfl
  · left
    intro r
    apply nanmean_isSome
    · exact fun hmap => hy (List.map_eq_nil_iff.mp hmap)
    · intro x hx
      rcases List.mem_map.mp hx with ⟨y, _, rfl⟩
      exact hval y s r c

theorem timeMean_isSome (d : SuitData) (p : Period) (s r : String) (c : ℕ)
    (hval : ∀ y sc rr cc, (d.val y sc rr cc).isSome = true)
    (hy : d.years.filter (fun y => p.containsYear y) ≠ []) :
    (d.timeMean p s r c).isSome = true := by
  apply nanmean_isSome
  · exact fun hmap => hy (List.map_eq_nil_iff.mp hmap)
  · intro x hx
    rcases List.mem_map.mp hx with ⟨y, _, rfl⟩
    exact hval y s r c

/-! ## Key-navigation lemmas for the merged output -/

theorem periodOfLabel_label (p : Period) (hp : p ∈ futurePeriods) :
    periodOfLabel p.label = some p := by
  simp only [futurePeriods, List.mem_cons, List.not_mem_nil, or_false] at hp
  rcases hp with hp | hp | hp <;> subst hp <;> decide

theorem futureLabel_ne_hist (p : Period) (hp : p ∈ futurePeriods) :
    p.label ≠ "1980-2009" := by
  simp only [futurePeriods, List.mem_cons, List.not_mem_nil, or_false] at hp
  rcases hp with hp | hp | hp <;> subst hp <;> decide

theorem change_apply (d : SuitData) (sig : SigTest) (m : DeltaMethod) (p : Period)
    (s : String) (c : ℕ) (hp : p ∈ futurePeriods) (hs : s ∈ d.scenarios) :
    (periodMmmChangeRobustness d sig m).change (p.label, s) c = d.changeField m p s c := by
  show (match periodOfLabel p.label with
    | some q => if s ∈ d.scenarios then d.changeField m q s c else none
    | none => none) = d.changeField m p s c
  rw [periodOfLabel_label p hp]
  simp [hs]

theorem categories_apply (d : SuitData) (sig : SigTest) (m : DeltaMethod) (p : Period)
    (s : String) (c : ℕ) (hp : p ∈ futurePeriods) (hs : s ∈ d.scenarios) :
    (periodMmmChangeRobustness d sig m).robustnessCategories (p.label, s) c
      = robustnessCategory (d.fractions sig p s c) := by
  show (match periodOfLabel p.label with
    | some q => if s ∈ d.scenarios then robustnessCategory (d.fractions sig q s c) else none
    | none => none) = robustnessCategory (d.fractions sig p s c)
  rw [periodOfLabel_label p hp]
  simp [hs]

theorem coefficient_apply (d : SuitData) (sig : SigTest) (m : DeltaMethod) (p : Period)
    (s : String) (c : ℕ) (hp : p ∈ futurePeriods) (hs : s ∈ d.scenarios) :
    (periodMmmChangeRobustness d sig m).robustnessCoefficient (p.label, s) c
      = d.robustnessCoefficient p s c := by
  show (match periodOfLabel p.label with
    | some q => if s ∈ d.scenarios then d.robustnessCoefficient q s c else none
    | none => none) = d.robustnessCoefficient p s c
  rw [periodOfLabel_label p hp]
  simp [hs]

theorem omap2_isSome (f : ℚ → ℚ → ℚ) {x y : Option ℚ} (hx : x.isSome = true)
    (hy : y.isSome = true) : (omap2 f x y).isSome = true := by
  rcases Option.isSome_iff_exists.mp hx with ⟨a, ha⟩
  rcases Option.isSome_iff_exists.mp hy with ⟨b, hb⟩
  rw [ha, hb]
  rfl

/-! ## Concrete example fields -/

/-- A small concrete suitability field: one scenario, two realizations, one
year inside each period; realization m1 goes from 1 to 2, realization m2
from 2 to 3. -/
def exData : SuitData where
  years := [1980, 2010, 2040, 2070]
  scenarios := ["ssp585"]
  realizations := ["m1", "m2"]
  val := fun y _ r _ =>
    some (if r = "m1" then (if y = 1980 then 1 else 2) else (if y = 1980 then 2 else 3))
  units := some "1"

/-- A significance test that accepts every change. -/
def sigAlways : SigTest := fun _ _ _ => true

/-- C1 (counterexample): with `delta_method="relative"` the code returns
the realization mean of the per-realization relative changes — here
(100 + 50)/2 = 75 — and not the multi-model-mean change divided by the
multi-model-mean baseline times 100, which is 1/(3/2)*100 = 200/3. -/
theorem relative_change_counterexample :
    (periodMmmChangeRobustness exData sigAlways DeltaMethod.relative).change
        ("2010-2039", "ssp585") 0 = some 75
    ∧ omap2 (fun dl b => dl / b * 100)
        (omap2 (fun f b => f - b)
          (nanmean (exData.realizations.map (fun r => exData.timeMean nearPeriod "ssp585" r 0)))
          (nanmean (exData.realizations.map (fun r => exData.histMean r 0))))
        (nanmean (exData.realizations.map (fun r => exData.histMean r 0)))
      = some (200 / 3)
    ∧ (75 : ℚ) ≠ 200 / 3 := by
  refine ⟨?_, ?_, by norm_num⟩
  · have h := change_apply exData sigAlways DeltaMethod.relative nearPeriod "ssp585" 0
      (by decide) (by decide)
    rw [show (("2010-2039", "ssp585") : String × String) = (nearPeriod.label, "ssp585") from rfl,
      h]
    simp [SuitData.changeField, exData, SuitData.timeMean, SuitData.histMean, SuitData.scenario0,
      nanmean, omap2, nearPeriod, histPeriod, Period.containsYear]
    norm_num
  · simp [exData, SuitData.timeMean, SuitData.histMean, SuitData.scenario0,
      nanmean, omap2, nearPeriod, histPeriod, Period.containsYear]
    norm_num

/-- C1 (amended): for every future period and scenario,
`delta_method="relative"` returns the realization mean of the
per-realization relative change (future minus baseline, divided by the
per-realization baseline, times 100) with the units attribute forced to
"%"; `delta_method="absolute"` returns the realization mean of the
per-realization difference — equal, for all-valid data, to
mean-over-realization of the future minus mean-over-realization of the
per-realization baseline — and propagates the input's units attribute. -/
theorem change_formula_per_realization (d : SuitData) (sig : SigTest) (p : Period)
    (s : String) (c : ℕ) (hp : p ∈ futurePeriods) (hs : s ∈ d.scenarios)
    (hval : ∀ y sc r cc, (d.val y sc r cc).isSome = true) :
    ((periodMmmChangeRobustness d sig DeltaMethod.relative).change (p.label, s) c
        = nanmean (d.realizations.map
            (fun r => omap2 (fun f h => (f - h) / h * 100) (d.timeMean p s r c) (d.histMean r c)))
      ∧ (periodMmmChangeRobustness d sig DeltaMethod.relative).changeUnits = some "%")
    ∧ ((periodMmmChangeRobustness d sig DeltaMethod.absolute).change (p.label, s) c
        = omap2 (fun f h => f - h)
            (nanmean (d.realizations.map (fun r => d.timeMean p s r c)))
            (nanmean (d.realizations.map (fun r => d.histMean r c)))
      ∧ (periodMmmChangeRobustness d sig DeltaMethod.absolute).changeUnits = d.units) := by
  refine ⟨⟨?_, rfl⟩, ?_, rfl⟩
  · rw [change_apply d sig DeltaMethod.relative p s c hp hs]
    rfl
  · rw [change_apply d sig DeltaMethod.absolute p s c hp hs]
    show nanmean (d.realizations.map
        (fun r => omap2 (fun f h => f - h) (d.timeMean p s r c) (d.histMean r c))) = _
    exact nanmean_omap2_sub d.realizations (fun r => d.timeMean p s r c)
      (fun r => d.histMean r c)
      (timeMean_some_or_none d p s c hval)
      (timeMean_some_or_none d histPeriod d.scenario0 c hval)

/-- C1 (witness): the amended change formulas evaluated on the concrete
example field. -/
theorem change_formula_per_realization_witness :
    (nearPeriod ∈ futurePeriods ∧ "ssp585" ∈ exData.scenarios
      ∧ ∀ y sc r cc, (exData.val y sc r cc).isSome = true)
    ∧ (((periodMmmChangeRobustness exData sigAlways DeltaMethod.relative).change
          (nearPeriod.label, "ssp585") 0
        = nanmean (exData.realizations.map
            (fun r => omap2 (fun f h => (f - h) / h * 100)
              (exData.timeMean nearPeriod "ssp585" r 0) (exData.histMean r 0)))
      ∧ (periodMmmChangeRobustness exData sigAlways DeltaMethod.relative).changeUnits
          = some "%")
    ∧ ((periodMmmChangeRobustness exData sigAlways DeltaMethod.absolute).change
          (nearPeriod.label, "ssp585") 0
        = omap2 (fun f h => f - h)
            (nanmean (exData.realizations.map (fun r => exData.timeMean nearPeriod "ssp585" r 0)))
            (nanmean (exData.realizations.map (fun r => exData.histMean r 0)))
      ∧ (periodMmmChangeRobustness exData sigAlways DeltaMethod.absolute).changeUnits
          = exData.units)) :=
  ⟨⟨by decide, by decide, fun _ _ _ _ => rfl⟩,
    change_formula_per_realization exData sigAlways nearPeriod "ssp585" 0
      (by decide) (by decide) (fun _ _ _ _ => rfl)⟩

/-- C6: when the historical slice is shared across scenarios, the baseline
entry of the output — keyed ("1980-2009", "historical"), with the scenario
coordinate dropped — equals the realization mean of the 1980-2009 time
mean computed from any scenario's historical slice. -/
theorem baseline_scenario_independent (d : SuitData) (sig : SigTest) (m : DeltaMethod)
    (hshare : ∀ s ∈ d.scenarios, ∀ y r c, histPeriod.containsYear y = true →
      d.val y s r c = d.val y d.scenario0 r c) :
    histKey ∈ (periodMmmChangeRobustness d sig m).keys
    ∧ histKey.2 = "historical"
    ∧ ∀ s ∈ d.scenarios, ∀ c,
        (periodMmmChangeRobustness d sig m).suitability histKey c
          = nanmean (d.realizations.map (fun r => d.timeMean histPeriod s r c)) := by
  refine ⟨List.mem_cons_self _ _, rfl, ?_⟩
  intro s hs c
  simp only [periodMmmChangeRobustness, if_true]
  congr 1
  apply List.map_congr_left
  intro r _
  unfold SuitData.histMean SuitData.timeMean
  congr 1
  apply List.map_congr_left
  intro y hy
  exact (hshare s hs y r c (List.mem_filter.mp hy).2).symm

/-- A concrete field with two scenarios whose values do not depend on the
scenario at all (so in particular the historical slice is shared). -/
def exDataShared : SuitData where
  years := [1980, 1990, 2010, 2040, 2070]
  scenarios := ["ssp245", "ssp585"]
  realizations := ["m1"]
  val := fun y _ _ _ => some (y : ℚ)
  units := none

/-- C6 (witness): baseline scenario-independence evaluated on the concrete
shared-history field. -/
theorem baseline_scenario_independent_witness :
    (∀ s ∈ exDataShared.scenarios, ∀ y r c, histPeriod.containsYear y = true →
      exDataShared.val y s r c = exDataShared.val y exDataShared.scenario0 r c)
    ∧ (histKey ∈ (periodMmmChangeRobustness exDataShared sigAlways DeltaMethod.absolute).keys
    ∧ histKey.2 = "historical"
    ∧ ∀ s ∈ exDataShared.scenarios, ∀ c,
        (periodMmmChangeRobustness exDataShared sigAlways DeltaMethod.absolute).suitability
            histKey c
          = nanmean (exDataShared.realizations.map
              (fun r => exDataShared.timeMean histPeriod s r c))) :=
  ⟨fun _ _ _ _ _ _ => rfl,
    baseline_scenario_independent exDataShared sigAlways DeltaMethod.absolute
      (fun _ _ _ _ _ _ => rfl)⟩

/-- C7: in the merged (period, scenario)-keyed output, the historical
1980-2009 entry carries no change, robustness category or robustness
coefficient — these are missing (NaN), never zero — while for valid input
data every future (period, scenario) entry carries all three. -/
theorem merged_output_field_presence (d : SuitData) (sig : SigTest) (m : DeltaMethod)
    (hval : ∀ y sc r cc, (d.val y sc r cc).isSome = true)
    (hyears : ∀ p ∈ allPeriods, d.years.filter (fun y => p.containsYear y) ≠ [])
    (hreal : d.realizations ≠ []) :
    (∀ c, (periodMmmChangeRobustness d sig m).change histKey c = none
      ∧ (periodMmmChangeRobustness d sig m).robustnessCategories histKey c = none
      ∧ (periodMmmChangeRobustness d sig m).robustnessCoefficient histKey c = none)
    ∧ ∀ p ∈ futurePeriods, ∀ s ∈ d.scenarios, ∀ c,
        ((p.label, s) ∈ (periodMmmChangeRobustness d sig m).keys
        ∧ ((periodMmmChangeRobustness d sig m).change (p.label, s) c).isSome = true
        ∧ ((periodMmmChangeRobustness d sig m).robustnessCategories (p.label, s) c).isSome
            = true
        ∧ ((periodMmmChangeRobustness d sig m).robustnessCoefficient (p.label, s) c).isSome
            = true) := by
  constructor
  · intro c
    exact ⟨rfl, rfl, rfl⟩
  · intro p hp s hs c
    have hpAll : p ∈ allPeriods := List.mem_cons_of_mem _ hp
    have hhistAll : histPeriod ∈ allPeriods := List.mem_cons_self _ _
    have hmapne : ∀ {β : Type} (f : String → β), d.realizations.map f ≠ [] := by
      intro β f hmap
      exact hreal (List.map_eq_nil_iff.mp hmap)
    refine ⟨?_, ?_, ?_, ?_⟩
    · refine List.mem_cons.mpr (Or.inr (List.mem_flatMap.mpr ⟨p.label, ?_, ?_⟩))
      · exact List.mem_map_of_mem (fun q => q.label) hp
      · exact List.mem_map_of_mem (fun sc => (p.label, sc)) hs
    · rw [change_apply d sig m p s c hp hs]
      cases m <;>
      · apply nanmean_isSome (hmapne _)
        intro x hx
        obtain ⟨r, _, rfl⟩ := List.mem_map.mp hx
        exact omap2_isSome _
          (timeMean_isSome d p s r c hval (hyears p hpAll))
          (timeMean_isSome d histPeriod d.scenario0 r c hval (hyears histPeriod hhistAll))
    · rw [categories_apply d sig m p s c hp hs]
      have hlen : (d.validChanges p s c).length = d.realizations.length := by
        unfold SuitData.validChanges
        apply length_filterMap_of_all_some
        intro r _
        have h3 : (d.realizationChange p s r c).isSome = true :=
          omap2_isSome _
            (timeMean_isSome d p s r c hval (hyears p hpAll))
            (timeMean_isSome d histPeriod s r c hval (hyears histPeriod hhistAll))
        rcases Option.isSome_iff_exists.mp h3 with ⟨w, hw⟩
        rw [hw]
        rfl
      have hnz : (d.validChanges p s c).length ≠ 0 := by
        rw [hlen]
        exact fun h0 => hreal (List.length_eq_zero.mp h0)
      have hvalid : (d.fractions sig p s c).valid = (d.validChanges p s c).length := by
        unfold SuitData.fractions
        rw [if_neg hnz]
      unfold robustnessCategory
      rw [if_neg (by rw [hvalid]; exact hnz)]
      rfl
    · rw [coefficient_apply d sig m p s c hp hs]
      have href : (d.refMean s c).isSome = true := by
        apply nanmean_isSome (hmapne _)
        intro x hx
        obtain ⟨r, _, rfl⟩ := List.mem_map.mp hx
        exact timeMean_isSome d histPeriod s r c hval (hyears histPeriod hhistAll)
      have hlen : (d.coeffChanges p s c).length = d.realizations.length := by
        unfold SuitData.coeffChanges
        rw [length_filterMap_of_all_some _ id, List.length_map]
        intro x hx
        obtain ⟨r, _, rfl⟩ := List.mem_map.mp hx
        exact omap2_isSome _ (timeMean_isSome d p s r c hval (hyears p hpAll)) href
      have hnz : (d.coeffChanges p s c).length ≠ 0 := by
        rw [hlen]
        exact fun h0 => hreal (List.length_eq_zero.mp h0)
      unfold SuitData.robustnessCoefficient
      rw [if_neg hnz]
      rfl

/-- C7 (witness): field presence evaluated on the concrete example
field. -/
theorem merged_output_field_presence_witness :
    ((∀ y sc r cc, (exData.val y sc r cc).isSome = true)
      ∧ (∀ p ∈ allPeriods, exData.years.filter (fun y => p.containsYear y) ≠ [])
      ∧ exData.realizations ≠ [])
    ∧ ((∀ c, (periodMmmChangeRobustness exData sigAlways DeltaMethod.absolute).change
            histKey c = none
      ∧ (periodMmmChangeRobustness exData sigAlways DeltaMethod.absolute).robustnessCategories
            histKey c = none
      ∧ (periodMmmChangeRobustness exData sigAlways DeltaMethod.absolute).robustnessCoefficient
            histKey c = none)
    ∧ ∀ p ∈ futurePeriods, ∀ s ∈ exData.scenarios, ∀ c,
        ((p.label, s) ∈ (periodMmmChangeRobustness exData sigAlways DeltaMethod.absolute).keys
        ∧ ((periodMmmChangeRobustness exData sigAlways DeltaMethod.absolute).change
            (p.label, s) c).isSome = true
        ∧ ((periodMmmChangeRobustness exData sigAlways DeltaMethod.absolute).robustnessCategories
            (p.label, s) c).isSome = true
        ∧ ((periodMmmChangeRobustness exData sigAlways
            DeltaMethod.absolute).robustnessCoefficient (p.label, s) c).isSome = true)) :=
  ⟨⟨fun _ _ _ _ => rfl, by decide, by decide⟩,
    merged_output_field_presence exData sigAlways DeltaMethod.absolute
      (fun _ _ _ _ => rfl) (by decide) (by decide)⟩

/-- C8: at every classified cell of a future (period, scenario) entry the
robustness category is exactly one of 0, 1, 2, with 0 meaning a robust
signal, 1 no change or no signal, and 2 a conflicting signal (conflicting
detection taking precedence over robust). -/
theorem robustness_categories_legend (d : SuitData) (sig : SigTest) (m : DeltaMethod)
    (p : Period) (s : String) (c : ℕ) (v : ℕ)
    (hp : p ∈ futurePeriods) (hs : s ∈ d.scenarios)
    (hv : (periodMmmChangeRobustness d sig m).robustnessCategories (p.label, s) c = some v) :
    (v = 0 ∨ v = 1 ∨ v = 2)
    ∧ (v = 2 ↔ (d.fractions sig p s c).conflictingSignal = true)
    ∧ (v = 0 ↔ ((d.fractions sig p s c).conflictingSignal = false
        ∧ (d.fractions sig p s c).robustSignal = true))
    ∧ (v = 1 ↔ ((d.fractions sig p s c).conflictingSignal = false
        ∧ (d.fractions sig p s c).robustSignal = false)) := by
  rw [categories_apply d sig m p s c hp hs] at hv
  unfold robustnessCategory at hv
  by_cases h0 : (d.fractions sig p s c).valid = 0
  · rw [if_pos h0] at hv
    exact absurd hv (by simp)
  · rw [if_neg h0] at hv
    have hveq := Option.some.inj hv
    subst hveq
    cases hc : (d.fractions sig p s c).conflictingSignal <;>
      cases hr : (d.fractions sig p s c).robustSignal <;>
      simp [hc, hr]

/-- C8 (witness): on the concrete example field the near-term category is
0 and means a robust, non-conflicting signal. -/
theorem robustness_categories_legend_witness :
    (nearPeriod ∈ futurePeriods ∧ "ssp585" ∈ exData.scenarios
      ∧ (periodMmmChangeRobustness exData sigAlways DeltaMethod.absolute).robustnessCategories
          (nearPeriod.label, "ssp585") 0 = some 0)
    ∧ ((0 = 0 ∨ 0 = 1 ∨ 0 = 2)
      ∧ ((0 : ℕ) = 2 ↔ (exData.fractions sigAlways nearPeriod "ssp585" 0).conflictingSignal
          = true)
      ∧ ((0 : ℕ) = 0 ↔ ((exData.fractions sigAlways nearPeriod "ssp585" 0).conflictingSignal
            = false
          ∧ (exData.fractions sigAlways nearPeriod "ssp585" 0).robustSignal = true))
      ∧ ((0 : ℕ) = 1 ↔ ((exData.fractions sigAlways nearPeriod "ssp585" 0).conflictingSignal
            = false
          ∧ (exData.fractions sigAlways nearPeriod "ssp585" 0).robustSignal = false))) := by
  have hcat : (periodMmmChangeRobustness exData sigAlways
      DeltaMethod.absolute).robustnessCategories (nearPeriod.label, "ssp585") 0 = some 0 := by
    rw [categories_apply exData sigAlways DeltaMethod.absolute nearPeriod "ssp585" 0
      (by decide) (by decide)]
    simp [robustnessCategory, SuitData.fractions, SuitData.validChanges,
      SuitData.realizationChange, Fractions.conflictingSignal, Fractions.robustSignal, exData,
      SuitData.timeMean, SuitData.histMean, SuitData.scenario0, nanmean, omap2, nearPeriod,
      histPeriod, Period.containsYear, sigAlways]
    norm_num
  exact ⟨⟨by decide, by decide, hcat⟩,
    robustness_categories_legend exData sigAlways DeltaMethod.absolute nearPeriod "ssp585" 0 0
      (by decide) (by decide) hcat⟩

/-! ## Suitability run engine (`LandUse.run_lsa` / `LandUse._run_lsa`)

Grids are modelled with real values over an abstract one-dimensional
rational coordinate axis, with a flag recording whether the variable
carries the time dimension (static soil/terrain variables do not; climate
variables do).  The weighted-aggregation engine, the response curves and
criterion evaluation are implemented in the external `lsapy` package and
are modelled from the spec (§4.1-§4.3); the indicator NetCDF store is
abstracted as a total function from structured file names (and the
optional realization selection) to grids. -/

noncomputable section

structure Grid where
  timeDim : Bool
  coords : List ℚ
  vals : ℚ → ℝ

instance : Inhabited Grid := ⟨⟨false, [], fun _ => 0⟩⟩

/-- Nearest source coordinate to a target coordinate (ties keep the
earlier coordinate). -/
def nearestCoord (cs : List ℚ) (x : ℚ) : ℚ :=
  match cs with
  | [] => x
  | c :: t => t.foldl (fun b a => if |a - x| < |b - x| then a else b) c

/-- Nearest-neighbour re-gridding, `g.interp_like(tgt, method="nearest")`:
the result lives on the target's coordinates and takes each value from the
nearest source coordinate. -/
def Grid.interpLike (g tgt : Grid) : Grid :=
  ⟨g.timeDim, tgt.coords, fun x => g.vals (nearestCoord g.coords x)⟩

inductive Category where
  | climate
  | soilTerrain
deriving DecidableEq, Repr

inductive CmpOp where
  | lt
  | le
  | gt
  | ge
  | eq
deriving DecidableEq, Repr

/-- Modelled from the spec (§4.1): the closed family of parametrised
response curves of the external `lsapy` standardisation layer.  The
empirically-fitted literature curves (`eqN` family) keep their scalar form
abstract, the discrete lookup carries a total rule table (every crop
catalog maps all class codes), and `precomputed` marks a criterion whose
indicator is already the final sub-score (`is_computed`). -/
inductive ResponseSpec where
  | logistic (a b : ℝ)
  | namedCurve (id : String) (f : ℝ → ℝ)
  | discrete (rules : ℤ → ℝ)
  | boolCmp (op : CmpOp) (thresh : ℝ)
  | precomputed

def applyCmp (op : CmpOp) (x thresh : ℝ) : Prop :=
  match op with
  | .lt => x < thresh
  | .le => x ≤ thresh
  | .gt => x > thresh
  | .ge => x ≥ thresh
  | .eq => x = thresh

open Classical in
/-- Modelled from the spec (§4.1): scalar evaluation of a response
curve. -/
def applyResponse (r : ResponseSpec) (x : ℝ) : ℝ :=
  match r with
  | .logistic a b => 1 / (1 + Real.exp (-(a * (x - b))))
  | .namedCurve _ f => f x
  | .discrete rules => rules ⌊x⌋
  | .boolCmp op thresh => if applyCmp op x thresh then 1 else 0
  | .precomputed => x

/-- One suitability criterion of a crop catalog (`lsapy.SuitabilityCriteria`):
a name, a category, a positive weight and a response specification.  The
indicator grid is attached at run time by the binding stage. -/
structure Criterion where
  name : String
  longName : String
  category : Category
  weight : ℝ
  response : ResponseSpec

/-- Modelled from the spec (§4.3): criterion evaluation on a bound
indicator grid — the response applied pointwise, or the indicator returned
unchanged when the criterion is pre-computed. -/
def computeScore (c : Criterion) (g : Grid) : Grid :=
  match c.response with
  | .precomputed => g
  | r => ⟨g.timeDim, g.coords, fun x => applyResponse r (g.vals x)⟩

/-! ### Indicator loading (`LandUse._load_criteria_indicators`) -/

inductive Res where
  | r1km
  | r5km
deriving DecidableEq, Repr

/-- Climate indicator resolution as a fixed function of the output
resolution (source line 595). -/
def climRes (res : Res) : String :=
  match res with
  | .r5km => "25km"
  | .r1km => "5km"

def resLabel (res : Res) : String :=
  match res with
  | .r1km => "1km"
  | .r5km => "5km"

/-- Structured indicator file name: climate files embed the scenario and
the climate resolution (`f"{file}_{scenario}_{clim_res}.nc"`), soil/terrain
files embed only the output resolution (`f"{file}_NZ{resolution}.nc"`). -/
inductive IndicatorFile where
  | clim (base scenario res : String)
  | soil (base res : String)
deriving DecidableEq, Repr

/-- The external indicator store: opening a NetCDF indicator file, with an
optional `sel(realization=model)` selection, yields a grid. -/
def IndicatorSource : Type := IndicatorFile → Option String → Grid

/-- Indicator loading for one criterion (source lines 593-618): the file
name depends on the criterion's category — scenario and climate resolution
for climate criteria, output resolution alone for soil/terrain criteria —
and the realization selection is applied only to climate criteria. -/
def loadIndicator (src : IndicatorSource) (files : String → String) (res : Res)
    (scenario : String) (model : Option String) (c : Criterion) : Grid :=
  match c.category with
  | .climate => src (.clim (files c.name) scenario (climRes res)) model
  | .soilTerrain => src (.soil (files c.name) (resLabel res)) none

/-- Score of one criterion in a run: the preprocessing hook (source lines
620-631) applied to the loaded indicator, then criterion evaluation. -/
def criterionScore (src : IndicatorSource) (files : String → String)
    (prep : String → Grid → Grid) (res : Res) (scenario : String) (model : Option String)
    (c : Criterion) : Grid :=
  computeScore c (prep c.name (loadIndicator src files res scenario model c))

/-! ### Aggregation (external `lsapy.aggregate`) -/

inductive AggMethod where
  | mean
  | wmean
  | gmean
  | wgmean
  | median
  | limfactor
deriving DecidableEq, Repr

def minList (xs : List ℝ) : ℝ :=
  match xs with
  | [] => 0
  | x :: t => t.foldl min x

open Classical in
def medianList (xs : List ℝ) : ℝ :=
  let sorted := xs.mergeSort (fun a b => decide (a ≤ b))
  if xs.length % 2 = 1 then sorted.getD (xs.length / 2) 0
  else (sorted.getD (xs.length / 2 - 1) 0 + sorted.getD (xs.length / 2) 0) / 2

/-- Modelled from the spec (§4.2): the supported aggregation formulas of
the external `lsapy` weighted-aggregation engine on one cell's values.
`wgmean` is the weighted geometric mean `(Π xᵢ^wᵢ)^(1/Σwᵢ)`; `median` and
`limfactor` ignore the weights. -/
def aggregateVals (m : AggMethod) (xs : List ℝ) (ws : List ℝ) : ℝ :=
  match m with
  | .mean => xs.sum / xs.length
  | .wmean => (List.zipWith (fun w x => w * x) ws xs).sum / ws.sum
  | .gmean => xs.prod ^ ((1 : ℝ) / xs.length)
  | .wgmean => (List.zipWith (fun w x => x ^ w) ws xs).prod ^ ((1 : ℝ) / ws.sum)
  | .median => medianList xs
  | .limfactor => minList xs

/-- Cell-wise aggregation of a family of grids (the inputs of one call
share their coordinate axis, which the result keeps, and the result
carries the time dimension when any input does). -/
def Grid.aggregate (m : AggMethod) (gs : List Grid) (ws : List ℝ) : Grid :=
  ⟨gs.any (fun g => g.timeDim), (gs.headD default).coords,
   fun x => aggregateVals m (gs.map (fun g => g.vals x)) ws⟩

/-! ### One suitability run (`LandUse._run_lsa`, source lines 490-537) -/

def soilCriteria (catalog : List Criterion) : List Criterion :=
  catalog.filter (fun c => decide (c.category = Category.soilTerrain))

def climateCriteria (catalog : List Criterion) : List Criterion :=
  catalog.filter (fun c => decide (c.category = Category.climate))

/-- Per-criterion soil/terrain scores of one run, on their native grid. -/
def soilSection (src : IndicatorSource) (files : String → String) (prep : String → Grid → Grid)
    (catalog : List Criterion) (res : Res) (scenario : String) (model : Option String) :
    List (String × Grid) :=
  (soilCriteria catalog).map (fun c => (c.name, criterionScore src files prep res scenario model c))

/-- The soil/terrain category score: `aggregate(sc_soil, method="wgmean",
weights=soil weights)` (source lines 509-513). -/
def soilAgg (src : IndicatorSource) (files : String → String) (prep : String → Grid → Grid)
    (catalog : List Criterion) (res : Res) (scenario : String) (model : Option String) : Grid :=
  Grid.aggregate AggMethod.wgmean
    ((soilSection src files prep catalog res scenario model).map (fun v => v.2))
    ((soilCriteria catalog).map (fun c => c.weight))

/-- Per-criterion climate scores of one run, on their native grid. -/
def climSection (src : IndicatorSource) (files : String → String) (prep : String → Grid → Grid)
    (catalog : List Criterion) (res : Res) (scenario : String) (model : Option String) :
    List (String × Grid) :=
  (climateCriteria catalog).map
    (fun c => (c.name, criterionScore src files prep res scenario model c))

/-- The climate category score: `aggregate(sc_clim, method="wgmean",
weights=climate weights)` (source lines 516-519). -/
def climAgg (src : IndicatorSource) (files : String → String) (prep : String → Grid → Grid)
    (catalog : List Criterion) (res : Res) (scenario : String) (model : Option String) : Grid :=
  Grid.aggregate AggMethod.wgmean
    ((climSection src files prep catalog res scenario model).map (fun v => v.2))
    ((climateCriteria catalog).map (fun c => c.weight))

/-- Shallow embedding of `LandUse._run_lsa`: the output dataset as an
ordered list of named variables — soil scores on their native grid, then
climate scores and the climate category score re-gridded onto the soil
grid by nearest-neighbour interpolation, the soil category score
unchanged, and finally the suitability, the wgmean of the two category
scores weighted by each category's total weight (`weights_by_category`,
modelled from the spec as the sum of the category's criterion weights).
The trailing `kwargs` mirror `_run_lsa`'s `**kwargs`, which the body never
uses. -/
def runLsaSingle (src : IndicatorSource) (files : String → String) (prep : String → Grid → Grid)
    (catalog : List Criterion) (res : Res) (scenario : String) (model : Option String)
    (kwargs : List (String × String)) : List (String × Grid) :=
  (soilSection src files prep catalog res scenario model
    ++ (climSection src files prep catalog res scenario model).map
        (fun v => (v.1, v.2.interpLike (soilAgg src files prep catalog res scenario model)))
    ++ [("climate", (climAgg src files prep catalog res scenario model).interpLike
          (soilAgg src files prep catalog res scenario model)),
        ("soilTerrain", soilAgg src files prep catalog res scenario model)])
  ++ [("suitability", Grid.aggregate AggMethod.wgmean
        [(climAgg src files prep catalog res scenario model).interpLike
          (soilAgg src files prep catalog res scenario model),
         soilAgg src files prep catalog res scenario model]
        [((climateCriteria catalog).map (fun c => c.weight)).sum,
         ((soilCriteria catalog).map (fun c => c.weight)).sum])]

/-! ### The run loop (`LandUse.run_lsa`, source lines 152-198) -/

/-- Structured output file name: per-scenario (and, at 1km, per-model)
suitability NetCDF files, and the single 1km soil/terrain suitability
file. -/
inductive OutFile where
  | suit (landuse scenario : String) (model : Option String) (res ver : String)
  | soilSuit (landuse res ver : String)
deriving DecidableEq, Repr

/-- Arguments of one `run_lsa` call (the land use instance's fields plus
the call's keyword arguments; `models` is the climate dataset's model
list). -/
structure RunConfig where
  src : IndicatorSource
  files : String → String
  prep : String → Grid → Grid
  catalog : List Criterion
  landuse : String
  version : String
  models : List String
  res : Res
  rerun : Bool
  kwargs : List (String × String)

/-- The (scenario, model) iterations of the loop: at 5km a single
iteration with no model selection, at 1km one iteration per climate
model. -/
def modelsFor (res : Res) (models : List String) : List (Option String) :=
  match res with
  | .r5km => [none]
  | .r1km => models.map some

def targetFile (cfg : RunConfig) (scen : String) (m : Option String) : OutFile :=
  OutFile.suit cfg.landuse scen m (resLabel cfg.res) cfg.version

def soilFile (cfg : RunConfig) : OutFile :=
  OutFile.soilSuit cfg.landuse (resLabel cfg.res) cfg.version

/-- The dataset `_run_lsa` computes for one (scenario, model). -/
def runContent (cfg : RunConfig) (scen : String) (m : Option String) : List (String × Grid) :=
  runLsaSingle cfg.src cfg.files cfg.prep cfg.catalog cfg.res scen m cfg.kwargs

/-- The content written to the per-scenario file: the full dataset at 5km,
and only the time-bearing (non-soil) variables at 1km (source lines
189-198). -/
def writtenContent (cfg : RunConfig) (scen : String) (m : Option String) :
    List (String × Grid) :=
  match cfg.res with
  | .r5km => runContent cfg scen m
  | .r1km => (runContent cfg scen m).filter (fun v => v.2.timeDim)

def fsUpdate (fs : OutFile → Option (List (String × Grid))) (k : OutFile)
    (v : List (String × Grid)) : OutFile → Option (List (String × Grid)) :=
  fun x => if x = k then some v else fs x

/-- State of a `run_lsa` call: the file system restricted to output files,
and the list of (scenario, model) pairs for which `_run_lsa` was invoked
(every invocation evaluates the soil/terrain scores once). -/
structure RunState where
  fs : OutFile → Option (List (String × Grid))
  computed : List (String × Option String)

/-- One loop iteration (source lines 175-198): skip when `rerun` is off
and the target file exists; otherwise run `_run_lsa`, additionally write
the soil variables to the soil file at 1km for the first model of the
historical scenario, and write the target file. -/
def processOne (cfg : RunConfig) (st : RunState) (sm : String × Option String) : RunState :=
  if !cfg.rerun && (st.fs (targetFile cfg sm.1 sm.2)).isSome then st
  else
    let fs1 :=
      if cfg.res = Res.r1km ∧ sm.2 = cfg.models.head? ∧ sm.1 = "historical" then
        fsUpdate st.fs (soilFile cfg)
          ((runContent cfg sm.1 sm.2).filter (fun v => !v.2.timeDim))
      else st.fs
    ⟨fsUpdate fs1 (targetFile cfg sm.1 sm.2) (writtenContent cfg sm.1 sm.2),
     st.computed ++ [sm]⟩

def scenarioPairs (cfg : RunConfig) (scens : List String) : List (String × Option String) :=
  scens.flatMap (fun scen => (modelsFor cfg.res cfg.models).map (fun m => (scen, m)))

/-- Shallow embedding of `LandUse.run_lsa` over an initial file system. -/
def runLsa (cfg : RunConfig) (scens : List String)
    (fs0 : OutFile → Option (List (String × Grid))) : RunState :=
  (scenarioPairs cfg scens).foldl (processOne cfg) ⟨fs0, []⟩

/-- Number of soil/terrain score computations in a run: `_run_lsa`
unconditionally evaluates the soil criterion scores (source lines
508-513), so each recorded invocation computes them once. -/
def soilComputations (st : RunState) : ℕ := st.computed.length

/-! ### Concrete run inputs -/

/-- A two-criterion concrete catalog: one soil/terrain criterion and one
climate criterion. -/
def exCatalog : List Criterion :=
  [⟨"slope", "Slope", Category.soilTerrain, 1, ResponseSpec.logistic (-(1 / 2)) 19⟩,
   ⟨"gdd", "Growing Degree Days", Category.climate, 2, ResponseSpec.precomputed⟩]

/-- A concrete indicator store: every file holds a constant static
grid. -/
def exSrc : IndicatorSource := fun _ _ => ⟨false, [0], fun _ => 1⟩

/-- A concrete 5km run configuration with `rerun=False`. -/
def cfgEx : RunConfig :=
  ⟨exSrc, id, fun _ g => g, exCatalog, "apple", "1.0", ["m0"], Res.r5km, false, []⟩

end

/-! ## Lookup helpers for the run dataset -/

theorem lookup_cons_ne {k a : String} {b : Grid} {l : List (String × Grid)}
    (h : a ≠ k) : ((a, b) :: l).lookup k = l.lookup k := by
  have hbeq : (k == a) = false := beq_eq_false_iff_ne.mpr (Ne.symm h)
  simp [List.lookup, hbeq]

theorem lookup_append_right (k : String) (l1 l2 : List (String × Grid))
    (h : ∀ p ∈ l1, p.1 ≠ k) : (l1 ++ l2).lookup k = l2.lookup k := by
  induction l1 with
  | nil => rfl
  | cons p t ih =>
    obtain ⟨a, b⟩ := p
    rw [List.cons_append, lookup_cons_ne (h (a, b) (List.mem_cons_self _ _))]
    exact ih (fun q hq => h q (List.mem_cons_of_mem _ hq))

theorem lookup_cons_self (k : String) (b : Grid) (l : List (String × Grid)) :
    ((k, b) :: l).lookup k = some b := by
  simp [List.lookup]

theorem lookup_map_of_mem (f : Criterion → String × Grid)
    (hf : ∀ c, (f c).1 = c.name) (l : List Criterion) (c : Criterion)
    (hc : c ∈ l) (hnd : (l.map (fun x => x.name)).Nodup) :
    (l.map f).lookup c.name = some (f c).2 := by
  induction l with
  | nil => cases hc
  | cons a t ih =>
    rcases List.mem_cons.mp hc with rfl | hct
    · rw [List.map_cons, show f c = ((f c).1, (f c).2) from rfl, ← hf c]
      exact lookup_cons_self _ _ _
    · have hane : a.name ≠ c.name := by
        intro he
        have hmem : c.name ∈ t.map (fun x => x.name) := List.mem_map_of_mem _ hct
        rw [← he] at hmem
        exact (List.nodup_cons.mp hnd).1 hmem
      rw [List.map_cons]
      have hne2 : ((f a).1 : String) ≠ c.name := by rw [hf a]; exact hane
      rw [show f a = ((f a).1, (f a).2) from rfl, lookup_cons_ne hne2]
      exact ih hct (List.nodup_cons.mp hnd).2

theorem soilCriteria_mem_category {catalog : List Criterion} {c : Criterion}
    (hc : c ∈ soilCriteria catalog) : c ∈ catalog ∧ c.category = Category.soilTerrain := by
  simp only [soilCriteria, List.mem_filter, decide_eq_true_eq] at hc
  exact hc

theorem climateCriteria_mem_category {catalog : List Criterion} {c : Criterion}
    (hc : c ∈ climateCriteria catalog) : c ∈ catalog ∧ c.category = Category.climate := by
  simp only [climateCriteria, List.mem_filter, decide_eq_true_eq] at hc
  exact hc

theorem nodup_names_filter (catalog : List Criterion) (p : Criterion → Bool)
    (hnd : (catalog.map (fun c => c.name)).Nodup) :
    ((catalog.filter p).map (fun c => c.name)).Nodup :=
  hnd.sublist ((List.filter_sublist catalog).map (fun c => c.name))

theorem name_ne_of_ne_category {catalog : List Criterion}
    (hnd : (catalog.map (fun c => c.name)).Nodup) {c c2 : Criterion}
    (hc : c ∈ catalog) (hc2 : c2 ∈ catalog) (hcat : c.category ≠ c2.category) :
    c.name ≠ c2.name := by
  intro he
  exact hcat (by rw [List.inj_on_of_nodup_map hnd hc hc2 he])

theorem lookup_cons (a : String) (b : Grid) (l : List (String × Grid)) (k : String) :
    ((a, b) :: l).lookup k = if k == a then some b else l.lookup k := by
  by_cases h : (k == a) = true <;> simp [List.lookup, h]

theorem lookup_append_left (k : String) (l1 l2 : List (String × Grid)) (v : Grid)
    (h : l1.lookup k = some v) : (l1 ++ l2).lookup k = some v := by
  induction l1 with
  | nil => cases h
  | cons p t ih =>
    obtain ⟨a, b⟩ := p
    rw [List.cons_append, lookup_cons]
    rw [lookup_cons] at h
    by_cases hka : (k == a) = true
    · rw [if_pos hka] at h ⊢
      exact h
    · rw [if_neg hka] at h ⊢
      exact ih h

/-- Helper: the lookup equations of the run dataset, shared by the claims
about re-gridding and aggregation. -/
theorem runLsaSingle_lookup
    (src : IndicatorSource) (files : String → String) (prep : String → Grid → Grid)
    (catalog : List Criterion) (res : Res) (scenario : String) (model : Option String)
    (kwargs : List (String × String))
    (hnd : (catalog.map (fun c => c.name)).Nodup)
    (hfresh : ∀ c ∈ catalog,
      c.name ≠ "climate" ∧ c.name ≠ "soilTerrain" ∧ c.name ≠ "suitability") :
    (∀ c ∈ catalog, c.category = Category.climate →
      (runLsaSingle src files prep catalog res scenario model kwargs).lookup c.name
        = some ((criterionScore src files prep res scenario model c).interpLike
            (soilAgg src files prep catalog res scenario model)))
    ∧ (∀ c ∈ catalog, c.category = Category.soilTerrain →
      (runLsaSingle src files prep catalog res scenario model kwargs).lookup c.name
        = some (criterionScore src files prep res scenario model c))
    ∧ (runLsaSingle src files prep catalog res scenario model kwargs).lookup "climate"
        = some ((climAgg src files prep catalog res scenario model).interpLike
            (soilAgg src files prep catalog res scenario model))
    ∧ (runLsaSingle src files prep catalog res scenario model kwargs).lookup "soilTerrain"
        = some (soilAgg src files prep catalog res scenario model)
    ∧ (∀ g : Grid, (g.interpLike (soilAgg src files prep catalog res scenario model)).coords
        = (soilAgg src files prep catalog res scenario model).coords) := by
  have hresS : ∀ (k : String), (∀ c ∈ catalog, c.name ≠ k) →
      ∀ p ∈ soilSection src files prep catalog res scenario model, p.1 ≠ k := by
    intro k hk p hp
    unfold soilSection at hp
    obtain ⟨c2, hc2, rfl⟩ := List.mem_map.mp hp
    exact hk c2 (soilCriteria_mem_category hc2).1
  have hresB : ∀ (k : String), (∀ c ∈ catalog, c.name ≠ k) →
      ∀ p ∈ (climSection src files prep catalog res scenario model).map
        (fun v => (v.1, v.2.interpLike (soilAgg src files prep catalog res scenario model))),
      p.1 ≠ k := by
    intro k hk p hp
    obtain ⟨v, hv, rfl⟩ := List.mem_map.mp hp
    unfold climSection at hv
    obtain ⟨c2, hc2, rfl⟩ := List.mem_map.mp hv
    exact hk c2 (climateCriteria_mem_category hc2).1
  refine ⟨?_, ?_, ?_, ?_, fun g => rfl⟩
  · intro c hc hcat
    unfold runLsaSingle
    rw [List.append_assoc, List.append_assoc]
    rw [lookup_append_right _ _ _ (fun p hp => ?skipS)]
    case skipS =>
      unfold soilSection at hp
      obtain ⟨c2, hc2, rfl⟩ := List.mem_map.mp hp
      have h2 := soilCriteria_mem_category hc2
      exact name_ne_of_ne_category hnd h2.1 hc (by rw [h2.2, hcat]; exact fun he => Category.noConfusion he)
    apply lookup_append_left
    unfold climSection
    rw [List.map_map]
    have hcC : c ∈ climateCriteria catalog := by
      unfold climateCriteria
      exact List.mem_filter.mpr ⟨hc, by simp [hcat]⟩
    exact lookup_map_of_mem _ (fun _ => rfl) (climateCriteria catalog) c hcC
      (nodup_names_filter catalog _ hnd)
  · intro c hc hcat
    unfold runLsaSingle
    rw [List.append_assoc, List.append_assoc]
    apply lookup_append_left
    unfold soilSection
    have hcS : c ∈ soilCriteria catalog := by
      unfold soilCriteria
      exact List.mem_filter.mpr ⟨hc, by simp [hcat]⟩
    exact lookup_map_of_mem _ (fun _ => rfl) (soilCriteria catalog) c hcS
      (nodup_names_filter catalog _ hnd)
  · unfold runLsaSingle
    rw [List.append_assoc, List.append_assoc]
    rw [lookup_append_right _ _ _ (hresS "climate" (fun c hc => (hfresh c hc).1))]
    rw [lookup_append_right _ _ _ (hresB "climate" (fun c hc => (hfresh c hc).1))]
    rw [List.cons_append]
    exact lookup_cons_self _ _ _
  · unfold runLsaSingle
    rw [List.append_assoc, List.append_assoc]
    rw [lookup_append_right _ _ _ (hresS "soilTerrain" (fun c hc => (hfresh c hc).2.1))]
    rw [lookup_append_right _ _ _ (hresB "soilTerrain" (fun c hc => (hfresh c hc).2.1))]
    rw [List.cons_append, lookup_cons_ne (by decide)]
    rw [List.cons_append]
    exact lookup_cons_self _ _ _

/-- C5: in every run the per-criterion climate scores and the climate
category score stored in the output are re-gridded onto the soil/terrain
grid by nearest-neighbour interpolation, while the soil/terrain scores are
carried through unchanged on their native grid, whose coordinates are the
coordinates of every re-gridded variable (the soil grid defines the common
output grid). -/
theorem climate_regridded_soil_native
    (src : IndicatorSource) (files : String → String) (prep : String → Grid → Grid)
    (catalog : List Criterion) (res : Res) (scenario : String) (model : Option String)
    (kwargs : List (String × String))
    (hnd : (catalog.map (fun c => c.name)).Nodup)
    (hfresh : ∀ c ∈ catalog,
      c.name ≠ "climate" ∧ c.name ≠ "soilTerrain" ∧ c.name ≠ "suitability") :
    (∀ c ∈ catalog, c.category = Category.climate →
      (runLsaSingle src files prep catalog res scenario model kwargs).lookup c.name
        = some ((criterionScore src files prep res scenario model c).interpLike
            (soilAgg src files prep catalog res scenario model)))
    ∧ (∀ c ∈ catalog, c.category = Category.soilTerrain →
      (runLsaSingle src files prep catalog res scenario model kwargs).lookup c.name
        = some (criterionScore src files prep res scenario model c))
    ∧ (runLsaSingle src files prep catalog res scenario model kwargs).lookup "climate"
        = some ((climAgg src files prep catalog res scenario model).interpLike
            (soilAgg src files prep catalog res scenario model))
    ∧ (runLsaSingle src files prep catalog res scenario model kwargs).lookup "soilTerrain"
        = some (soilAgg src files prep catalog res scenario model)
    ∧ (∀ g : Grid, (g.interpLike (soilAgg src files prep catalog res scenario model)).coords
        = (soilAgg src files prep catalog res scenario model).coords) :=
  runLsaSingle_lookup src files prep catalog res scenario model kwargs hnd hfresh

/-- C5 (witness): the re-gridding layout of a run on the concrete
two-criterion catalog. -/
theorem climate_regridded_soil_native_witness :
    ((exCatalog.map (fun c => c.name)).Nodup
      ∧ ∀ c ∈ exCatalog,
        c.name ≠ "climate" ∧ c.name ≠ "soilTerrain" ∧ c.name ≠ "suitability")
    ∧ ((∀ c ∈ exCatalog, c.category = Category.climate →
      (runLsaSingle exSrc id (fun _ g => g) exCatalog Res.r5km "historical" none []).lookup c.name
        = some ((criterionScore exSrc id (fun _ g => g) Res.r5km "historical" none c).interpLike
            (soilAgg exSrc id (fun _ g => g) exCatalog Res.r5km "historical" none)))
    ∧ (∀ c ∈ exCatalog, c.category = Category.soilTerrain →
      (runLsaSingle exSrc id (fun _ g => g) exCatalog Res.r5km "historical" none []).lookup c.name
        = some (criterionScore exSrc id (fun _ g => g) Res.r5km "historical" none c))
    ∧ (runLsaSingle exSrc id (fun _ g => g) exCatalog Res.r5km "historical" none []).lookup
          "climate"
        = some ((climAgg exSrc id (fun _ g => g) exCatalog Res.r5km "historical" none).interpLike
            (soilAgg exSrc id (fun _ g => g) exCatalog Res.r5km "historical" none))
    ∧ (runLsaSingle exSrc id (fun _ g => g) exCatalog Res.r5km "historical" none []).lookup
          "soilTerrain"
        = some (soilAgg exSrc id (fun _ g => g) exCatalog Res.r5km "historical" none)
    ∧ (∀ g : Grid,
        (g.interpLike (soilAgg exSrc id (fun _ g => g) exCatalog Res.r5km "historical" none)).coords
        = (soilAgg exSrc id (fun _ g => g) exCatalog Res.r5km "historical" none).coords)) :=
  ⟨⟨by decide, by decide⟩,
    climate_regridded_soil_native exSrc id (fun _ g => g) exCatalog Res.r5km "historical" none []
      (by decide) (by decide)⟩

/-- C2: the climate category score is the wgmean of the per-criterion
climate scores with the catalog's climate weights, the soilTerrain
category score is the wgmean of the per-criterion soil/terrain scores with
their weights, and the final suitability is the wgmean of the two category
scores (on the common grid) weighted by each category's total weight. -/
theorem wgmean_category_aggregation
    (src : IndicatorSource) (files : String → String) (prep : String → Grid → Grid)
    (catalog : List Criterion) (res : Res) (scenario : String) (model : Option String)
    (kwargs : List (String × String))
    (hnd : (catalog.map (fun c => c.name)).Nodup)
    (hfresh : ∀ c ∈ catalog,
      c.name ≠ "climate" ∧ c.name ≠ "soilTerrain" ∧ c.name ≠ "suitability") :
    (runLsaSingle src files prep catalog res scenario model kwargs).lookup "climate"
      = some ((Grid.aggregate AggMethod.wgmean
          ((climateCriteria catalog).map
            (fun c => criterionScore src files prep res scenario model c))
          ((climateCriteria catalog).map (fun c => c.weight))).interpLike
            (soilAgg src files prep catalog res scenario model))
    ∧ (runLsaSingle src files prep catalog res scenario model kwargs).lookup "soilTerrain"
      = some (Grid.aggregate AggMethod.wgmean
          ((soilCriteria catalog).map
            (fun c => criterionScore src files prep res scenario model c))
          ((soilCriteria catalog).map (fun c => c.weight)))
    ∧ (runLsaSingle src files prep catalog res scenario model kwargs).getLast?
      = some ("suitability", Grid.aggregate AggMethod.wgmean
          [(climAgg src files prep catalog res scenario model).interpLike
            (soilAgg src files prep catalog res scenario model),
           soilAgg src files prep catalog res scenario model]
          [((climateCriteria catalog).map (fun c => c.weight)).sum,
           ((soilCriteria catalog).map (fun c => c.weight)).sum]) := by
  obtain ⟨-, -, h3, h4, -⟩ := runLsaSingle_lookup src files prep catalog res scenario
    model kwargs hnd hfresh
  have hclim : (climSection src files prep catalog res scenario model).map (fun v => v.2)
      = (climateCriteria catalog).map
          (fun c => criterionScore src files prep res scenario model c) := by
    unfold climSection
    rw [List.map_map]
    rfl
  have hsoil : (soilSection src files prep catalog res scenario model).map (fun v => v.2)
      = (soilCriteria catalog).map
          (fun c => criterionScore src files prep res scenario model c) := by
    unfold soilSection
    rw [List.map_map]
    rfl
  refine ⟨?_, ?_, ?_⟩
  · rw [h3]
    unfold climAgg
    rw [hclim]
  · rw [h4]
    unfold soilAgg
    rw [hsoil]
  · unfold runLsaSingle
    exact List.getLast?_concat _

/-- C2 (witness): the wgmean aggregation equations of a run on the
concrete two-criterion catalog. -/
theorem wgmean_category_aggregation_witness :
    ((exCatalog.map (fun c => c.name)).Nodup
      ∧ ∀ c ∈ exCatalog,
        c.name ≠ "climate" ∧ c.name ≠ "soilTerrain" ∧ c.name ≠ "suitability")
    ∧ ((runLsaSingle exSrc id (fun _ g => g) exCatalog Res.r5km "ssp245" none []).lookup
          "climate"
      = some ((Grid.aggregate AggMethod.wgmean
          ((climateCriteria exCatalog).map
            (fun c => criterionScore exSrc id (fun _ g => g) Res.r5km "ssp245" none c))
          ((climateCriteria exCatalog).map (fun c => c.weight))).interpLike
            (soilAgg exSrc id (fun _ g => g) exCatalog Res.r5km "ssp245" none))
    ∧ (runLsaSingle exSrc id (fun _ g => g) exCatalog Res.r5km "ssp245" none []).lookup
          "soilTerrain"
      = some (Grid.aggregate AggMethod.wgmean
          ((soilCriteria exCatalog).map
            (fun c => criterionScore exSrc id (fun _ g => g) Res.r5km "ssp245" none c))
          ((soilCriteria exCatalog).map (fun c => c.weight)))
    ∧ (runLsaSingle exSrc id (fun _ g => g) exCatalog Res.r5km "ssp245" none []).getLast?
      = some ("suitability", Grid.aggregate AggMethod.wgmean
          [(climAgg exSrc id (fun _ g => g) exCatalog Res.r5km "ssp245" none).interpLike
            (soilAgg exSrc id (fun _ g => g) exCatalog Res.r5km "ssp245" none),
           soilAgg exSrc id (fun _ g => g) exCatalog Res.r5km "ssp245" none]
          [((climateCriteria exCatalog).map (fun c => c.weight)).sum,
           ((soilCriteria exCatalog).map (fun c => c.weight)).sum])) :=
  ⟨⟨by decide, by decide⟩,
    wgmean_category_aggregation exSrc id (fun _ g => g) exCatalog Res.r5km "ssp245" none []
      (by decide) (by decide)⟩

/-- C4 (amended): the soil/terrain per-criterion scores and the
soilTerrain category score depend only on the static, resolution-selected
soil/terrain indicators and are therefore identical whatever the scenario
or model of the run; the scenario-independent category score is the
soilTerrain variable of every run's output.  (The engine does, however,
recompute them on each invocation — see the counterexample.) -/
theorem soil_scores_scenario_model_invariant
    (src : IndicatorSource) (files : String → String) (prep : String → Grid → Grid)
    (catalog : List Criterion) (res : Res) (s1 s2 : String) (m1 m2 : Option String)
    (k2 : List (String × String)) :
    soilSection src files prep catalog res s1 m1 = soilSection src files prep catalog res s2 m2
    ∧ soilAgg src files prep catalog res s1 m1 = soilAgg src files prep catalog res s2 m2
    ∧ ("soilTerrain", soilAgg src files prep catalog res s1 m1)
        ∈ runLsaSingle src files prep catalog res s2 m2 k2 := by
  have hsec : soilSection src files prep catalog res s1 m1
      = soilSection src files prep catalog res s2 m2 := by
    unfold soilSection
    apply List.map_congr_left
    intro c hc
    have hcat : c.category = Category.soilTerrain := (soilCriteria_mem_category hc).2
    unfold criterionScore loadIndicator
    rw [hcat]
  have hagg : soilAgg src files prep catalog res s1 m1
      = soilAgg src files prep catalog res s2 m2 := by
    unfold soilAgg
    rw [hsec]
  refine ⟨hsec, hagg, ?_⟩
  rw [hagg]
  unfold runLsaSingle
  apply List.mem_append_left
  apply List.mem_append_right
  exact List.mem_cons_of_mem _ (List.mem_cons_self _ _)

/-- C4 (counterexample): running two scenarios with `rerun` off on an
empty file system invokes `_run_lsa` — and with it the soil/terrain score
computation — twice, once per scenario: the static criteria are not
computed just once per run. -/
theorem soil_recompute_counterexample :
    soilComputations (runLsa cfgEx ["historical", "ssp126"] (fun _ => none)) = 2
    ∧ (2 : ℕ) ≠ 1 :=
  ⟨by decide, by decide⟩

/-- C10: the extra keyword arguments forwarded from `run_lsa` to
`_run_lsa` (for example the command line's `agg_methods="mean"`) never
influence the computation: runs with different keyword arguments produce
identical states and datasets, and the suitability variable is always the
wgmean aggregate of the category scores. -/
theorem kwargs_no_effect
    (src : IndicatorSource) (files : String → String) (prep : String → Grid → Grid)
    (catalog : List Criterion) (lu ver : String) (models : List String) (res : Res)
    (rerun : Bool) (scens : List String)
    (fs0 : OutFile → Option (List (String × Grid))) (k1 k2 : List (String × String))
    (scenario : String) (model : Option String) :
    runLsa ⟨src, files, prep, catalog, lu, ver, models, res, rerun, k1⟩ scens fs0
      = runLsa ⟨src, files, prep, catalog, lu, ver, models, res, rerun, k2⟩ scens fs0
    ∧ runLsaSingle src files prep catalog res scenario model k1
      = runLsaSingle src files prep catalog res scenario model k2
    ∧ (runLsaSingle src files prep catalog res scenario model k1).getLast?
      = some ("suitability", Grid.aggregate AggMethod.wgmean
          [(climAgg src files prep catalog res scenario model).interpLike
            (soilAgg src files prep catalog res scenario model),
           soilAgg src files prep catalog res scenario model]
          [((climateCriteria catalog).map (fun c => c.weight)).sum,
           ((soilCriteria catalog).map (fun c => c.weight)).sum]) := by
  refine ⟨rfl, rfl, ?_⟩
  unfold runLsaSingle
  exact List.getLast?_concat _

/-! ## Frame lemmas for the run loop -/

theorem targetFile_inj (cfg : RunConfig) {s1 s2 : String} {m1 m2 : Option String}
    (h : targetFile cfg s1 m1 = targetFile cfg s2 m2) : s1 = s2 ∧ m1 = m2 := by
  unfold targetFile at h
  injection h with h1 h2 h3 h4 h5
  exact ⟨h2, h3⟩

theorem soilFile_ne_targetFile (cfg : RunConfig) (s : String) (m : Option String) :
    soilFile cfg ≠ targetFile cfg s m := by
  unfold soilFile targetFile
  intro h
  exact OutFile.noConfusion h

theorem processOne_skip (cfg : RunConfig) (st : RunState) (sm : String × Option String)
    (hrr : cfg.rerun = false) (hex : (st.fs (targetFile cfg sm.1 sm.2)).isSome = true) :
    processOne cfg st sm = st := by
  unfold processOne
  rw [hrr, hex]
  rfl

theorem processOne_computed (cfg : RunConfig) (st : RunState) (sm : String × Option String) :
    (processOne cfg st sm).computed
      = st.computed
        ++ (if cfg.rerun || !((st.fs (targetFile cfg sm.1 sm.2)).isSome) then [sm] else []) := by
  unfold processOne
  cases hr : cfg.rerun <;> cases hex : (st.fs (targetFile cfg sm.1 sm.2)).isSome <;>
    simp [hr, hex]

theorem processOne_fs_frame (cfg : RunConfig) (st : RunState) (sm : String × Option String)
    (f : OutFile) (hf1 : f ≠ targetFile cfg sm.1 sm.2) (hf2 : f ≠ soilFile cfg) :
    (processOne cfg st sm).fs f = st.fs f := by
  unfold processOne
  cases hb : (!cfg.rerun && (st.fs (targetFile cfg sm.1 sm.2)).isSome)
  · rw [if_neg Bool.false_ne_true]
    show (fsUpdate _ (targetFile cfg sm.1 sm.2) _) f = st.fs f
    unfold fsUpdate
    rw [if_neg hf1]
    split
    · simp [hf2]
    · rfl
  · rw [if_pos rfl]

theorem processOne_compute_fs (cfg : RunConfig) (st : RunState) (sm : String × Option String)
    (hgo : cfg.rerun = true ∨ st.fs (targetFile cfg sm.1 sm.2) = none) :
    (processOne cfg st sm).fs (targetFile cfg sm.1 sm.2)
      = some (writtenContent cfg sm.1 sm.2) := by
  have hb : (!cfg.rerun && (st.fs (targetFile cfg sm.1 sm.2)).isSome) = false := by
    rcases hgo with h | h
    · simp [h]
    · simp [h]
  unfold processOne
  rw [hb, if_neg Bool.false_ne_true]
  show (fsUpdate _ (targetFile cfg sm.1 sm.2) _) (targetFile cfg sm.1 sm.2) = _
  unfold fsUpdate
  rw [if_pos rfl]

theorem runLsa_fold_core (cfg : RunConfig) (L : List (String × Option String)) :
    ∀ (st : RunState), L.Nodup →
    ((L.foldl (processOne cfg) st).computed
        = st.computed
          ++ L.filter (fun sm => cfg.rerun || !((st.fs (targetFile cfg sm.1 sm.2)).isSome)))
    ∧ (∀ f : OutFile, (∀ sm ∈ L, f ≠ targetFile cfg sm.1 sm.2) → f ≠ soilFile cfg →
        (L.foldl (processOne cfg) st).fs f = st.fs f)
    ∧ (∀ sm ∈ L,
        (cfg.rerun = false ∧ (st.fs (targetFile cfg sm.1 sm.2)).isSome = true →
          (L.foldl (processOne cfg) st).fs (targetFile cfg sm.1 sm.2)
            = st.fs (targetFile cfg sm.1 sm.2))
        ∧ ((cfg.rerun = true ∨ st.fs (targetFile cfg sm.1 sm.2) = none) →
          (L.foldl (processOne cfg) st).fs (targetFile cfg sm.1 sm.2)
            = some (writtenContent cfg sm.1 sm.2))) := by
  induction L with
  | nil =>
    intro st _
    exact ⟨by simp, fun f _ _ => rfl, fun sm hsm => absurd hsm (List.not_mem_nil sm)⟩
  | cons a t ih =>
    intro st hnd
    have hnd2 := List.nodup_cons.mp hnd
    have htne : ∀ sm ∈ t, targetFile cfg sm.1 sm.2 ≠ targetFile cfg a.1 a.2 := by
      intro sm hsm he
      rcases targetFile_inj cfg he with ⟨h1, h2⟩
      exact hnd2.1 (by rw [← Prod.ext h1 h2]; exact hsm)
    have hfr : ∀ sm ∈ t, (processOne cfg st a).fs (targetFile cfg sm.1 sm.2)
        = st.fs (targetFile cfg sm.1 sm.2) := by
      intro sm hsm
      exact processOne_fs_frame cfg st a (targetFile cfg sm.1 sm.2) (htne sm hsm)
        (fun he => soilFile_ne_targetFile cfg sm.1 sm.2 he.symm)
    obtain ⟨ihc, ihf, ihm⟩ := ih (processOne cfg st a) hnd2.2
    refine ⟨?_, ?_, ?_⟩
    · rw [List.foldl_cons, ihc, processOne_computed, List.filter_cons]
      have hflt : t.filter
            (fun sm => cfg.rerun || !(((processOne cfg st a).fs (targetFile cfg sm.1 sm.2)).isSome))
          = t.filter (fun sm => cfg.rerun || !((st.fs (targetFile cfg sm.1 sm.2)).isSome)) := by
        apply List.filter_congr
        intro sm hsm
        rw [hfr sm hsm]
      rw [hflt, List.append_assoc]
      cases hpa : (cfg.rerun || !((st.fs (targetFile cfg a.1 a.2)).isSome)) <;> simp [hpa]
    · intro f hfall hsoil
      rw [List.foldl_cons, ihf f (fun sm hsm => hfall sm (List.mem_cons_of_mem a hsm)) hsoil]
      exact processOne_fs_frame cfg st a f (hfall a (List.mem_cons_self a t)) hsoil
    · intro sm hsm
      rcases List.mem_cons.mp hsm with heq | hsmt
      · rw [heq]
        constructor
        · rintro ⟨hrr, hex⟩
          rw [List.foldl_cons, processOne_skip cfg st a hrr hex]
          obtain ⟨-, ihf2, -⟩ := ih st hnd2.2
          exact ihf2 (targetFile cfg a.1 a.2)
            (fun sm2 hsm2 => (htne sm2 hsm2).symm)
            (fun he => soilFile_ne_targetFile cfg a.1 a.2 he.symm)
        · intro hgo
          rw [List.foldl_cons]
          rw [ihf (targetFile cfg a.1 a.2)
            (fun sm2 hsm2 => (htne sm2 hsm2).symm)
            (fun he => soilFile_ne_targetFile cfg a.1 a.2 he.symm)]
          exact processOne_compute_fs cfg st a hgo
      · have hcond : (processOne cfg st a).fs (targetFile cfg sm.1 sm.2)
            = st.fs (targetFile cfg sm.1 sm.2) := hfr sm hsmt
        constructor
        · rintro ⟨hrr, hex⟩
          rw [List.foldl_cons]
          rw [(ihm sm hsmt).1 ⟨hrr, by rw [hcond]; exact hex⟩, hcond]
        · intro hgo
          rw [List.foldl_cons]
          exact (ihm sm hsmt).2 (by rw [hcond]; exact hgo)

theorem runLsa_all_skip_aux (cfg : RunConfig) (L : List (String × Option String)) :
    ∀ (st : RunState), cfg.rerun = false →
    (∀ sm ∈ L, (st.fs (targetFile cfg sm.1 sm.2)).isSome = true) →
    L.foldl (processOne cfg) st = st := by
  induction L with
  | nil => intro st _ _; rfl
  | cons a t ih =>
    intro st hrr hall
    rw [List.foldl_cons, processOne_skip cfg st a hrr (hall a (List.mem_cons_self a t))]
    exact ih st hrr (fun sm hsm => hall sm (List.mem_cons_of_mem a hsm))

/-- C9: with `rerun` off, a (scenario, model) iteration whose output file
exists is skipped — no `_run_lsa` invocation and a file system unchanged
when every target exists — and an iteration is computed, with its file
written to the freshly computed dataset, exactly when `rerun` is on or the
file is absent; a skipped iteration's existing file is left untouched. -/
theorem run_lsa_skip_exists (cfg : RunConfig) (scens : List String)
    (fs0 : OutFile → Option (List (String × Grid)))
    (hnd : (scenarioPairs cfg scens).Nodup) :
    ((cfg.rerun = false ∧ ∀ sm ∈ scenarioPairs cfg scens,
        (fs0 (targetFile cfg sm.1 sm.2)).isSome = true) →
      runLsa cfg scens fs0 = ⟨fs0, []⟩)
    ∧ (∀ sm ∈ scenarioPairs cfg scens,
        (sm ∈ (runLsa cfg scens fs0).computed
          ↔ (cfg.rerun = true ∨ fs0 (targetFile cfg sm.1 sm.2) = none)))
    ∧ (∀ sm ∈ scenarioPairs cfg scens,
        (cfg.rerun = false ∧ (fs0 (targetFile cfg sm.1 sm.2)).isSome = true →
          (runLsa cfg scens fs0).fs (targetFile cfg sm.1 sm.2)
            = fs0 (targetFile cfg sm.1 sm.2))
        ∧ ((cfg.rerun = true ∨ fs0 (targetFile cfg sm.1 sm.2) = none) →
          (runLsa cfg scens fs0).fs (targetFile cfg sm.1 sm.2)
            = some (writtenContent cfg sm.1 sm.2))) := by
  obtain ⟨hc, -, hm⟩ := runLsa_fold_core cfg (scenarioPairs cfg scens) ⟨fs0, []⟩ hnd
  dsimp only at hc hm
  refine ⟨?_, ?_, hm⟩
  · rintro ⟨hrr, hall⟩
    exact runLsa_all_skip_aux cfg (scenarioPairs cfg scens) ⟨fs0, []⟩ hrr hall
  · intro sm hsm
    show sm ∈ (runLsa cfg scens fs0).computed ↔ _
    unfold runLsa
    rw [hc]
    rw [List.nil_append]
    constructor
    · intro hmem
      have := (List.mem_filter.mp hmem).2
      cases hr : cfg.rerun
      · right
        rw [hr] at this
        cases hfs : fs0 (targetFile cfg sm.1 sm.2)
        · rfl
        · rw [hfs] at this
          simp at this
      · left
        rfl
    · intro hgo
      apply List.mem_filter.mpr
      refine ⟨hsm, ?_⟩
      rcases hgo with h | h
      · rw [h]
        simp
      · rw [h]
        simp

/-- C9 (witness): on the concrete 5km configuration with an empty file
system, both iterations are computed and written. -/
theorem run_lsa_skip_exists_witness :
    (scenarioPairs cfgEx ["historical", "ssp126"]).Nodup
    ∧ (((cfgEx.rerun = false ∧ ∀ sm ∈ scenarioPairs cfgEx ["historical", "ssp126"],
        (((fun _ => none) : OutFile → Option (List (String × Grid)))
            (targetFile cfgEx sm.1 sm.2)).isSome = true) →
      runLsa cfgEx ["historical", "ssp126"] (fun _ => none) = ⟨fun _ => none, []⟩)
    ∧ (∀ sm ∈ scenarioPairs cfgEx ["historical", "ssp126"],
        (sm ∈ (runLsa cfgEx ["historical", "ssp126"] (fun _ => none)).computed
          ↔ (cfgEx.rerun = true
            ∨ ((fun _ => none) : OutFile → Option (List (String × Grid)))
                (targetFile cfgEx sm.1 sm.2) = none)))
    ∧ (∀ sm ∈ scenarioPairs cfgEx ["historical", "ssp126"],
        (cfgEx.rerun = false
            ∧ (((fun _ => none) : OutFile → Option (List (String × Grid)))
                (targetFile cfgEx sm.1 sm.2)).isSome = true →
          (runLsa cfgEx ["historical", "ssp126"] (fun _ => none)).fs
              (targetFile cfgEx sm.1 sm.2)
            = ((fun _ => none) : OutFile → Option (List (String × Grid)))
                (targetFile cfgEx sm.1 sm.2))
        ∧ ((cfgEx.rerun = true
            ∨ ((fun _ => none) : OutFile → Option (List (String × Grid)))
                (targetFile cfgEx sm.1 sm.2) = none) →
          (runLsa cfgEx ["historical", "ssp126"] (fun _ => none)).fs
              (targetFile cfgEx sm.1 sm.2)
            = some (writtenContent cfgEx sm.1 sm.2)))) :=
  ⟨by decide,
    run_lsa_skip_exists cfgEx ["historical", "ssp126"] (fun _ => none) (by decide)⟩

end NZLUSDB
